import Mathlib

/-!
Verification of the ws-server-wrapper-go message-routing core.

The definitions below are a shallow embedding of the Go sources:
`message.go`, `channel.go`, `server.go`, `errors.go`, the handler
dispatch helpers, and the context helpers. JSON-decoded Go interface
values are modelled by the inductive `Json`; Go maps keyed by
`handlerName` or request ID are modelled by association lists; Go's
`(value, error)` pairs are modelled by products with `Option String`
errors. Mutexes are elided where every code path releases them; the
one lock whose release is path-dependent (`Client.dataMu` inside
`closeWithoutLock`) is tracked explicitly by a boolean field.
-/

/-- JSON values as decoded by `encoding/json` into Go interface values
(`nil`, `bool`, numbers, `string`, `[]any`, `map[string]any`). Numbers are
modelled as integers; the claims under study never depend on fractional
values. -/
inductive Json where
  | null
  | bool (b : Bool)
  | num (n : Int)
  | str (s : String)
  | arr (elems : List Json)
  | obj (fields : List (String × Json))

/-- First binding for `key` in a decoded JSON object, mirroring Go map
lookup (`map[string]any` has unique keys, so first match is the match). -/
def jsonLookup (fields : List (String × Json)) (key : String) : Option Json :=
  match fields with
  | [] => none
  | (k, v) :: rest => if k = key then some v else jsonLookup rest key

/-- `Message` from `message.go`: the ws-wrapper wire message. Go `any`
fields whose `nil` means "absent" are modelled by `Option Json`;
`RequestID *int` by `Option Int`. -/
structure Message where
  channel : String := ""
  arguments : List Json := []
  requestID : Option Int := none
  responseData : Option Json := none
  responseError : Option Json := none
  responseJSError : Bool := false
  ignoreIfFalse : Option Bool := none

/-- `Message.EventName` from `message.go`: the first argument if it
decodes as a JSON string, else the empty string. -/
def Message.EventName (m : Message) : String :=
  match m.arguments with
  | .str name :: _ => name
  | _ => ""

/-- `Message.HandlerArguments` from `message.go`: `Arguments[1:]`, or
empty when there are fewer than two arguments. -/
def Message.HandlerArguments (m : Message) : List Json :=
  match m.arguments with
  | [] => []
  | [_] => []
  | _ :: rest => rest

/-- `Message.Response` from `message.go`, returning Go's
`(any, error)` as `(Option Json, Option String)` where the second
component is the error message (`none` = nil error). -/
def Message.Response (m : Message) : Option Json × Option String :=
  match m.requestID with
  | none => (none, some "message is not a response")
  | some _ =>
    match m.responseError with
    | none => (m.responseData, none)
    | some respErr =>
      if m.responseJSError then
        match respErr with
        | .obj fields =>
          match jsonLookup fields "message" with
          | some (.str errMsg) => (none, some errMsg)
          | _ => (none, some "response is a malformed JavaScript error: message key is not a string")
        | _ => (none, some "response is a malformed JavaScript error: not an object")
      else
        match respErr with
        | .str errMsg => (none, some errMsg)
        | _ => (none, some "response error is not a string")

/-- `handlerName` from the handlers file: a unique key for a handler
having the specified channel and event name. -/
structure handlerName where
  Channel : String
  Event : String
deriving DecidableEq

/-- Association-list lookup modelling Go map indexing `m[k]` (keys are
unique in a Go map, so the first match is the match). -/
def lookupA {α β : Type} [DecidableEq α] (l : List (α × β)) (k : α) : Option β :=
  match l with
  | [] => none
  | (k2, v) :: rest => if k2 = k then some v else lookupA rest k

/-- Association-list removal modelling Go `delete(m, k)`. -/
def eraseA {α β : Type} [DecidableEq α] (l : List (α × β)) (k : α) : List (α × β) :=
  match l with
  | [] => []
  | (k2, v) :: rest => if k2 = k then eraseA rest k else (k2, v) :: eraseA rest k

/-- A registered handler, abstracted to the observable behaviour of
`callHandler` on it: decoded wire arguments in, Go `(result, error)` out.
(`callHandler` itself, with its reflection-driven argument coercion, is
modelled concretely further below over the `GoVal` universe.) -/
abbrev Handler : Type := List Json → Option Json × Option String

/-- The four handler tables consulted by `Client.handleMessage`
(`channel.go`): the client's `handlersOnce`/`handlers` pair and the
server's `handlersOnce`/`handlers` pair. The public `On`/`Once`
registration API never stores a nil handler (nil deletes the key), so
table entries are always present-and-callable. -/
structure DispatchTables where
  clientOnce : List (handlerName × Handler)
  clientOn : List (handlerName × Handler)
  serverOnce : List (handlerName × Handler)
  serverOn : List (handlerName × Handler)

/-- Handler selection from `Client.handleMessage` (`channel.go` lines
540-560): check the client `once` table (deleting a match), then the
client persistent table, then the server `once` table (deleting a
match), then the server persistent table. Returns the selected handler
and the updated tables. -/
def selectHandler (t : DispatchTables) (k : handlerName) :
    Option Handler × DispatchTables :=
  match lookupA t.clientOnce k with
  | some h => (some h, { t with clientOnce := eraseA t.clientOnce k })
  | none =>
    match lookupA t.clientOn k with
    | some h => (some h, t)
    | none =>
      match lookupA t.serverOnce k with
      | some h => (some h, { t with serverOnce := eraseA t.serverOnce k })
      | none => (lookupA t.serverOn k, t)

/-- `messageResponse` from `message.go`: a response to a message,
`(Data any, Error error)`. -/
structure messageResponse where
  Data : Option Json
  Error : Option String

/-- `StatusCode`: WebSocket close status codes. The `StatusCode` type
and its constants are declared in a repository file that is not under
`src/`; the values are the standard RFC 6455 codes and are used here
only as opaque data. -/
abbrev StatusCode := Nat

def StatusGoingAway : StatusCode := 1001

def StatusInternalError : StatusCode := 1011

/-- The `Conn` transport (`conn.go`) modelled by the results its
methods return and a log of successfully written messages. `writeErr`
is the error `WriteMessage` returns (none = writes succeed), `closeErr`
the error `Close` returns. -/
structure ConnState where
  writeErr : Option String := none
  closeErr : Option String := none
  written : List Message := []

/-- `Client` from `channel.go`. `conn = none` models the nil connection
of a closed client; `ctxCause` is the cause the client context was
cancelled with (`context.WithCancelCause`: only the first cancellation
records a cause). `dataMuLocked` tracks the `dataMu` mutex explicitly
because `closeWithoutLock` has a path that returns without releasing
it; every other method releases `dataMu` on all paths and is modelled
lock-free. -/
structure ClientState where
  id : Nat
  conn : Option ConnState := some { }
  handlers : List (handlerName × Handler) := []
  handlersOnce : List (handlerName × Handler) := []
  ctxCause : Option String := none
  dataMuLocked : Bool := false

/-- `Server` from `server.go`. `clients = none` models the nil live-set
of a closed server; `pending` is `requestResponseCh` with the response
channels' identities abstracted away (deliveries into them are returned
by the transition functions instead). -/
structure ServerState where
  clients : Option (List ClientState) := some []
  handlers : List (handlerName × Handler) := []
  handlersOnce : List (handlerName × Handler) := []
  requestID : Int := 0
  pending : List (Int × Unit) := []

/-- `Conn.WriteMessage`: fails with `writeErr` when set, otherwise logs
the written message. -/
def ConnState.write (conn : ConnState) (m : Message) : ConnState × Option String :=
  match conn.writeErr with
  | some e => (conn, some e)
  | none => ({ conn with written := conn.written ++ [m] }, none)

/-- `Client.sendReject` (`channel.go` lines 339-355): write an error
response for a request, silently succeeding when the connection is
already closed. -/
def sendReject (c : ClientState) (requestID : Option Int) (err : Option String) :
    ClientState × Option String :=
  match requestID with
  | none => (c, some "requestID is required")
  | some i =>
    match err with
    | none => (c, some "error is required")
    | some e =>
      match c.conn with
      | none => (c, none)
      | some conn =>
        let r := conn.write { requestID := some i, responseError := some (.str e) }
        ({ c with conn := some r.1 }, r.2)

/-- `Client.sendResolve` (`channel.go` lines 358-372): write a data
response for a request, silently succeeding when the connection is
already closed. -/
def sendResolve (c : ClientState) (requestID : Option Int) (data : Option Json) :
    ClientState × Option String :=
  match requestID with
  | none => (c, some "requestID is required")
  | some i =>
    match c.conn with
    | none => (c, none)
    | some conn =>
      let r := conn.write { requestID := some i, responseData := data }
      ({ c with conn := some r.1 }, r.2)

/-- `Client.sendEvent` (`channel.go` lines 375-386): write one event
message, failing when the connection is closed. -/
def sendEvent (c : ClientState) (channelName : String) (args : List Json) :
    ClientState × Option String :=
  match c.conn with
  | none => (c, some "connection is closed")
  | some conn =>
    let r := conn.write { channel := channelName, arguments := args }
    ({ c with conn := some r.1 }, r.2)

/-- The "no event listener" error built by `Client.handleMessage`
(`channel.go` lines 563-570): the channel name is included only on a
named channel. -/
def noListenerError (channelName eventName : String) : String :=
  if channelName = "" then
    "no event listener for \x27" ++ eventName ++ "\x27"
  else
    "no event listener for \x27" ++ eventName ++ "\x27 on channel \x27" ++
      channelName ++ "\x27"

/-- `Client.handleMessage` (`channel.go` lines 533-627). Returns the
updated server and client, the deliveries made into pending-request
response channels as `(requestID, response)` pairs, and the Go error
return. The handler invocation (`callHandler`) is abstracted to the
stored `Handler` function; its reflection mechanics are modelled
separately by the `GoVal` development below. -/
def handleMessage (s : ServerState) (c : ClientState) (m : Message) :
    ServerState × ClientState × List (Int × messageResponse) × Option String :=
  let eventName := m.EventName
  if eventName ≠ "" then
    let handlerID : handlerName := ⟨m.channel, eventName⟩
    let sel := selectHandler ⟨c.handlersOnce, c.handlers, s.handlersOnce, s.handlers⟩ handlerID
    let c1 := { c with handlersOnce := sel.2.clientOnce, handlers := sel.2.clientOn }
    let s1 := { s with handlersOnce := sel.2.serverOnce, handlers := sel.2.serverOn }
    match sel.1 with
    | none =>
      match m.requestID with
      | some _ =>
        let r := sendReject c1 m.requestID (some (noListenerError m.channel eventName))
        (s1, r.1, [], r.2)
      | none => (s1, c1, [], none)
    | some h =>
      let hres := h m.HandlerArguments
      match m.requestID with
      | none => (s1, c1, [], none)
      | some _ =>
        match hres.2 with
        | some e =>
          let r := sendReject c1 m.requestID (some e)
          (s1, r.1, [], r.2)
        | none =>
          let r := sendResolve c1 m.requestID hres.1
          (s1, r.1, [], r.2)
  else
    match m.requestID with
    | none => (s, c, [], none)
    | some rid =>
      match lookupA s.pending rid with
      | none => (s, c, [], none)
      | some _ =>
        let resp := m.Response
        ({ s with pending := eraseA s.pending rid }, c,
          [(rid, ⟨resp.1, resp.2⟩)], none)

/-- The cancellation cause set by `closeWithoutLock`:
`fmt.Errorf("client closed (status: %v)", status)`. -/
def closedCause (status : StatusCode) : String :=
  "client closed (status: " ++ toString status ++ ")"

/-- The externally observable side effects of one close call: whether
the client-level and server-level close/disconnect observers fired,
whether the transport close handshake ran, and the error returned. -/
structure CloseEffects where
  firedClientClose : Bool := false
  firedServerClose : Bool := false
  transportClosed : Bool := false
  result : Option String := none
deriving DecidableEq

/-- `Client.closeWithoutLock` (`channel.go` lines 300-314): cancel the
client context, then under `dataMu` test-and-clear `conn`; when the
connection is already closed, return nil at once — on that path the
code returns while still holding `dataMu`, which the `dataMuLocked`
field records. Otherwise fire the client and server close observers and
perform the transport close handshake. -/
def closeWithoutLock (c : ClientState) (status : StatusCode) (reason : String) :
    ClientState × CloseEffects :=
  let cause := match c.ctxCause with
    | some old => some old
    | none => some (closedCause status)
  let c1 := { c with ctxCause := cause, dataMuLocked := true }
  match c1.conn with
  | none => (c1, { })
  | some conn =>
    let c2 := { c1 with conn := none, dataMuLocked := false }
    (c2, { firedClientClose := true, firedServerClose := true,
           transportClosed := true, result := conn.closeErr })

/-- `Client.Close` (`channel.go` lines 291-296): remove the client from
the server live set (a no-op on a nil set, like Go `delete` on a nil
map), then `closeWithoutLock`. -/
def clientClose (s : ServerState) (c : ClientState) (status : StatusCode)
    (reason : String) : ServerState × ClientState × CloseEffects :=
  let s1 := { s with
    clients := s.clients.map (fun cs => cs.filter (fun c2 => c2.id != c.id)) }
  let r := closeWithoutLock c status reason
  (s1, r.1, r.2)

/-- `newClient` (`channel.go` lines 261-287) as far as the claims need
it: a fresh client bound to a transport, with empty handler tables and
an uncancelled context. -/
def newClient (id : Nat) (conn : ConnState) : ClientState :=
  { id := id, conn := some conn }

/-- `Server.Accept` (`server.go` lines 41-57): fail when the live set
is nil, otherwise register a fresh client. -/
def serverAccept (s : ServerState) (id : Nat) (conn : ConnState) :
    ServerState × Option String :=
  match s.clients with
  | none => (s, some "server is closed and cannot accept connections")
  | some cs => ({ s with clients := some (cs ++ [newClient id conn]) }, none)

/-- `Server.Close` (`server.go` lines 61-88): nil out the live set,
close every client via `closeWithoutLock` keeping the first error, then
deliver `request aborted` into every pending response channel and clear
the pending map. Returns the updated server, the first client-close
error, and the abort deliveries. -/
def serverClose (s : ServerState) :
    ServerState × Option String × List (Int × messageResponse) :=
  let clients := match s.clients with
    | none => []
    | some cs => cs
  let results := clients.map (fun c => closeWithoutLock c StatusGoingAway "server is closing")
  let clientErr := (results.filterMap (fun r => r.2.result)).head?
  let aborted : List (Int × messageResponse) :=
    s.pending.map (fun p => (p.1, ⟨none, some "request aborted"⟩))
  ({ s with clients := none, pending := [] }, clientErr, aborted)

/-- The `select` at the end of `Client.sendRequest` (`channel.go` lines
427-437), determinised for states in which at most one alternative is
ready (the only configurations the theorems below use it in; the race
among several ready alternatives is modelled by `selectCanReturn`): a
delivered response is returned as is; otherwise a cancelled client
context or a cancelled caller context yields the wrapped cause
(`fmt.Errorf("awaiting response: %w", ...)`); otherwise the caller is
still blocked. -/
def awaitOutcome (delivered : Option messageResponse)
    (clientCause : Option String) (callerCause : Option String) :
    Option messageResponse :=
  match delivered with
  | some r => some r
  | none =>
    match clientCause with
    | some cause => some ⟨none, some ("awaiting response: " ++ cause)⟩
    | none =>
      match callerCause with
      | some cause => some ⟨none, some ("awaiting response: " ++ cause)⟩
      | none => none

/-- The `select` at the end of `Client.sendRequest` (`channel.go` lines
427-437) in full: Go's `select` may return through any ready
alternative — a buffered response on the response channel, the client
context's cancellation, or the caller context's cancellation — choosing
among several ready alternatives nondeterministically. -/
inductive selectCanReturn (delivered : Option messageResponse)
    (clientCause : Option String) (callerCause : Option String) :
    messageResponse → Prop where
  | ofDelivered (r : messageResponse) (h : delivered = some r) :
      selectCanReturn delivered clientCause callerCause r
  | ofClientCtx (cause : String) (h : clientCause = some cause) :
      selectCanReturn delivered clientCause callerCause
        ⟨none, some ("awaiting response: " ++ cause)⟩
  | ofCallerCtx (cause : String) (h : callerCause = some cause) :
      selectCanReturn delivered clientCause callerCause
        ⟨none, some ("awaiting response: " ++ cause)⟩

/-- `IsReservedEvent` from the handlers file. -/
def IsReservedEvent (eventName : String) : Bool :=
  match eventName with
  | "open" => true
  | "connect" => true
  | "error" => true
  | "message" => true
  | "close" => true
  | "disconnect" => true
  | _ => false

/-- `checkEventName` (`channel.go` lines 105-114): the first emit
argument must exist and be a string. -/
def checkEventName (arguments : List Json) : Except String String :=
  match arguments with
  | [] => .error "event name is required"
  | a :: _ =>
    match a with
    | .str name => .ok name
    | _ => .error "event name must be a string"

/-- `ClientError` from `errors.go`: an error for a specific client; the
`*Client` field is modelled by the client id (none = nil client). -/
structure ClientError where
  Client : Option Nat
  errMsg : String
deriving DecidableEq

/-- The client loop inside `ServerChannel.Emit` (`channel.go` lines
223-231): send the event to each live client in turn, collecting one
`ClientError` per failed send and never aborting the loop. -/
def emitToClients (channelName : String) (args : List Json) :
    List ClientState → List ClientState × List ClientError
  | [] => ([], [])
  | c :: rest =>
    let r := sendEvent c channelName args
    let restRes := emitToClients channelName args rest
    (r.1 :: restRes.1,
     match r.2 with
     | some e => ⟨some c.id, e⟩ :: restRes.2
     | none => restRes.2)

/-- `ServerChannel.Emit` (`channel.go` lines 206-233): validate the
event name, reject reserved events on the main channel, then write the
event to every live client collecting per-client errors. -/
def serverEmit (s : ServerState) (channelName : String) (args : List Json) :
    ServerState × List ClientError :=
  match checkEventName args with
  | .error e => (s, [⟨none, e⟩])
  | .ok eventName =>
    if channelName = "" ∧ IsReservedEvent eventName then
      (s, [⟨none, "cannot emit reserved event \x27" ++ eventName ++
        "\x27 on main channel"⟩])
    else
      match s.clients with
      | none => (s, [])
      | some cs =>
        let res := emitToClients channelName args cs
        ({ s with clients := some res.1 }, res.2)

/-- The per-client effect of a successful broadcast write: the event
message appended to the client connection's written log. -/
def appendEvent (channelName : String) (args : List Json) (c : ClientState) :
    ClientState :=
  match c.conn with
  | none => c
  | some conn =>
    { c with conn := some { conn with
        written := conn.written ++ [{ channel := channelName, arguments := args }] } }

/-- A fragment of Go's type universe as seen by `reflect` in
`callHandler`: the `context.Context` interface type, `bool`, `int`,
`int64`, and slices. -/
inductive GoType where
  | context
  | boolT
  | intT
  | int64T
  | sliceT (elem : GoType)
deriving DecidableEq, BEq

/-- Values of the `GoType` fragment. A slice value carries its element
type (as a Go slice does, even when empty). -/
inductive GoVal where
  | boolV (b : Bool)
  | intV (n : Int)
  | int64V (n : Int)
  | sliceV (elem : GoType) (elems : List GoVal)
  | ctxV

/-- `reflect.Value.Type` on the fragment. -/
def GoVal.typeOf : GoVal → GoType
  | .boolV _ => .boolT
  | .intV _ => .intT
  | .int64V _ => .int64T
  | .sliceV e _ => .sliceT e
  | .ctxV => .context

/-- `reflect.Type.ConvertibleTo` on the fragment: every type to itself,
and the numeric pair `int`/`int64` to each other. Distinct slice types
are not convertible (hence the element-wise branch in `callHandler`). -/
def convertibleTo (a b : GoType) : Bool :=
  match a, b with
  | .intT, .int64T => true
  | .int64T, .intT => true
  | a, b => a == b

/-- `reflect.Value.Convert` on the fragment (both `int` and `int64` are
64-bit, so the numeric conversions preserve the value). -/
def convert (v : GoVal) (t : GoType) : GoVal :=
  match v, t with
  | .intV n, .int64T => .int64V n
  | .int64V n, .intT => .intV n
  | v, _ => v

/-- One argument of `callHandler`'s conversion loop (the handlers file,
lines 123-144): direct conversion when `ConvertibleTo`, element-wise
conversion when argument and parameter are both slices with convertible
element types, otherwise the type-mismatch error. -/
def convertArg (v : GoVal) (paramT : GoType) : Except String GoVal :=
  if convertibleTo v.typeOf paramT then .ok (convert v paramT)
  else
    match v, paramT with
    | .sliceV argE elems, .sliceT paramE =>
      if convertibleTo argE paramE then
        .ok (.sliceV paramE (elems.map (fun x => convert x paramE)))
      else .error "argument type mismatch"
    | _, _ => .error "argument type mismatch"

/-- `callHandler`'s conversion loop over all arguments; the final
catch-all is unreachable because the argument count is checked first. -/
def convertArgs : List GoVal → List GoType → Except String (List GoVal)
  | [], [] => .ok []
  | v :: vs, t :: ts =>
    match convertArg v t with
    | .error e => .error e
    | .ok w =>
      match convertArgs vs ts with
      | .error e => .error e
      | .ok ws => .ok (w :: ws)
  | _, _ => .error "incorrect number of arguments"

/-- A registered Go handler function as `reflect` sees it in
`callHandler`: its input types, its output arity, whether its last
output implements `error`, and its behaviour (the Go `(result, error)`
the underlying function returns when called). -/
structure GoFunc where
  inTypes : List GoType
  numOut : Nat
  lastOutIsError : Bool
  impl : List GoVal → Option GoVal × Option String

/-- `callHandler` from the handlers file (lines 81-159). The
handler-is-not-a-function branch is unrepresentable here (a `GoFunc` is
always a function). Checks the argument count against the declared
parameters (excluding an optional leading context parameter), then the
output shape, then converts the arguments, then calls the function
exactly once; the data result is the zero value (nil) when the handler
declares a single error output. -/
def callHandler (f : GoFunc) (arguments : List GoVal) : Option GoVal × Option String :=
  let numIn := f.inTypes.length
  let hasContext := f.inTypes.head? = some .context
  let argOffset := if hasContext then 1 else 0
  if arguments.length ≠ numIn - argOffset then
    (none, some "incorrect number of arguments")
  else if f.numOut ≠ 1 ∧ f.numOut ≠ 2 then
    (none, some "handler should return one or two values")
  else if ¬ f.lastOutIsError then
    (none, some "handler\x27s last output type must implement error")
  else
    match convertArgs arguments (f.inTypes.drop argOffset) with
    | .error e => (none, some e)
    | .ok ins =>
      let outs := f.impl ins
      (if f.numOut = 2 then outs.1 else none, outs.2)

/-- Context keys: the package-scoped `ClientKey` plus arbitrary foreign
keys. -/
inductive CtxKey where
  | clientKey
  | otherKey (tag : Nat)
deriving DecidableEq

/-- Context values: a `*Client` (by id) or any foreign value. -/
inductive CtxVal where
  | clientVal (id : Nat)
  | otherVal (tag : Nat)
deriving DecidableEq

/-- A Go `context.Context` modelled by its chain of `WithValue`
bindings, innermost first; `Value` returns the innermost binding. -/
abbrev GoContext := List (CtxKey × CtxVal)

/-- `context.Context.Value`. -/
def ctxValue (ctx : GoContext) (k : CtxKey) : Option CtxVal := lookupA ctx k

/-- `ClientFromContext` from the context helpers file: `Value(ClientKey)`
followed by a `*Client` type assertion; nil when the key is absent or
bound to a value of another type. -/
def ClientFromContext (ctx : GoContext) : Option Nat :=
  match ctxValue ctx .clientKey with
  | some (.clientVal c) => some c
  | _ => none

/-- The context built by `newClient` (`channel.go` lines 271-281):
`context.WithCancelCause(context.Background())` (no value bindings)
wrapped by `context.WithValue(ctx, ClientKey, c)`. -/
def newClientContext (id : Nat) : GoContext := [(.clientKey, .clientVal id)]

/-- The wire message produced by `sendReject`: a response carrying the
request id and the error string. -/
def rejectMessage (rid : Int) (errStr : String) : Message :=
  { requestID := some rid, responseError := some (.str errStr) }

/-- The wire message produced by `sendResolve`: a response carrying the
request id and the data. -/
def resolveMessage (rid : Int) (data : Option Json) : Message :=
  { requestID := some rid, responseData := data }

/-- C2: `Message.Response` fails when `RequestID` is unset; with no
`ResponseError` it returns `(ResponseData, nil)`; with the foreign-error
flag set it returns the string under the `message` key of the error
mapping and fails with a malformed-error result when the error is not a
mapping or that entry is not a string; otherwise it returns the
`ResponseError` string and fails when `ResponseError` is not a string. -/
theorem C2_response_cases (m : Message) :
    (m.requestID = none →
      m.Response = (none, some "message is not a response")) ∧
    (m.requestID.isSome → m.responseError = none →
      m.Response = (m.responseData, none)) ∧
    (∀ respErr, m.requestID.isSome → m.responseError = some respErr →
      m.responseJSError = true →
      ((∀ fields errMsg, respErr = .obj fields →
          jsonLookup fields "message" = some (.str errMsg) →
          m.Response = (none, some errMsg)) ∧
       (∀ fields, respErr = .obj fields →
          (∀ s, jsonLookup fields "message" ≠ some (.str s)) →
          m.Response = (none, some "response is a malformed JavaScript error: message key is not a string")) ∧
       ((∀ fields, respErr ≠ .obj fields) →
          m.Response = (none, some "response is a malformed JavaScript error: not an object")))) ∧
    (∀ respErr, m.requestID.isSome → m.responseError = some respErr →
      m.responseJSError = false →
      ((∀ errMsg, respErr = .str errMsg →
          m.Response = (none, some errMsg)) ∧
       ((∀ s, respErr ≠ .str s) →
          m.Response = (none, some "response error is not a string")))) := by
  obtain ⟨ch, args, reqID, rd, re, jsErr, iif⟩ := m
  refine ⟨?_, ?_, ?_, ?_⟩
  · intro h
    cases reqID with
    | none => rfl
    | some i => simp at h
  · intro h1 h2
    cases reqID with
    | none => simp at h1
    | some i =>
      simp only at h2
      subst h2
      rfl
  · intro respErr h1 h2 h3
    cases reqID with
    | none => simp at h1
    | some i =>
      simp only at h2 h3
      subst h2 h3
      refine ⟨?_, ?_, ?_⟩
      · intro fields errMsg hf hl
        subst hf
        simp [Message.Response, hl]
      · intro fields hf hl
        subst hf
        simp only [Message.Response]
        cases hlv : jsonLookup fields "message" with
        | none => simp [hlv]
        | some v =>
          cases v with
          | str s => exact absurd hlv (hl s)
          | null => simp [hlv]
          | bool b => simp [hlv]
          | num n => simp [hlv]
          | arr es => simp [hlv]
          | obj fs => simp [hlv]
      · intro hne
        simp only [Message.Response]
        cases respErr with
        | obj fs => exact absurd rfl (hne fs)
        | null => simp
        | bool b => simp
        | num n => simp
        | str s => simp
        | arr es => simp
  · intro respErr h1 h2 h3
    cases reqID with
    | none => simp at h1
    | some i =>
      simp only at h2 h3
      subst h2 h3
      refine ⟨?_, ?_⟩
      · intro errMsg hf
        subst hf
        simp [Message.Response]
      · intro hne
        simp only [Message.Response]
        cases respErr with
        | str s => exact absurd rfl (hne s)
        | null => simp
        | bool b => simp
        | num n => simp
        | arr es => simp
        | obj fs => simp

/-- Witness for C2: evaluates each branch of `Message.Response` at
concrete messages through `C2_response_cases`. -/
theorem C2_response_cases_witness :
    ({ } : Message).Response = (none, some "message is not a response") ∧
    ({ requestID := some 1, responseData := some (.str "hi") } : Message).Response
      = (some (.str "hi"), none) ∧
    ({ requestID := some 1, responseError := some (.obj [("message", .str "X")]),
       responseJSError := true } : Message).Response = (none, some "X") ∧
    ({ requestID := some 1, responseError := some (.obj [("message", .num 3)]),
       responseJSError := true } : Message).Response
      = (none, some "response is a malformed JavaScript error: message key is not a string") ∧
    ({ requestID := some 1, responseError := some (.str "boom"),
       responseJSError := true } : Message).Response
      = (none, some "response is a malformed JavaScript error: not an object") ∧
    ({ requestID := some 1, responseError := some (.str "bad") } : Message).Response
      = (none, some "bad") ∧
    ({ requestID := some 1, responseError := some (.num 7) } : Message).Response
      = (none, some "response error is not a string") := by
  refine ⟨(C2_response_cases { }).1 rfl,
    (C2_response_cases
      { requestID := some 1, responseData := some (.str "hi") }).2.1 rfl rfl,
    ((C2_response_cases
      { requestID := some 1, responseError := some (.obj [("message", .str "X")]),
        responseJSError := true }).2.2.1 _ rfl rfl rfl).1 _ "X" rfl rfl,
    ((C2_response_cases
      { requestID := some 1, responseError := some (.obj [("message", .num 3)]),
        responseJSError := true }).2.2.1 _ rfl rfl rfl).2.1 _ rfl ?_,
    ((C2_response_cases
      { requestID := some 1, responseError := some (.str "boom"),
        responseJSError := true }).2.2.1 _ rfl rfl rfl).2.2 ?_,
    ((C2_response_cases
      { requestID := some 1, responseError := some (.str "bad") }).2.2.2
        _ rfl rfl rfl).1 "bad" rfl,
    ((C2_response_cases
      { requestID := some 1, responseError := some (.num 7) }).2.2.2
        _ rfl rfl rfl).2 ?_⟩
  · intro s h
    simp [jsonLookup] at h
  · intro fields h
    cases h
  · intro s h
    cases h

/-- C1: on an inbound (channel, event) message exactly one handler is
selected, found by checking the connection `once` table, the connection
persistent table, the registry `once` table, then the registry
persistent table, with the first match winning and a matching `once`
entry removed from its table; consequently, when a connection-scoped
handler exists for the key, the selected handler is that
connection-scoped one and the registry tables are left untouched. -/
theorem C1_lookup_priority (t : DispatchTables) (k : handlerName) :
    (∀ h, lookupA t.clientOnce k = some h →
      selectHandler t k = (some h, { t with clientOnce := eraseA t.clientOnce k })) ∧
    (lookupA t.clientOnce k = none → ∀ h, lookupA t.clientOn k = some h →
      selectHandler t k = (some h, t)) ∧
    (lookupA t.clientOnce k = none → lookupA t.clientOn k = none →
      ∀ h, lookupA t.serverOnce k = some h →
      selectHandler t k = (some h, { t with serverOnce := eraseA t.serverOnce k })) ∧
    (lookupA t.clientOnce k = none → lookupA t.clientOn k = none →
      lookupA t.serverOnce k = none →
      selectHandler t k = (lookupA t.serverOn k, t)) ∧
    (∀ h, (lookupA t.clientOnce k = some h ∨
        (lookupA t.clientOnce k = none ∧ lookupA t.clientOn k = some h)) →
      (selectHandler t k).1 = some h ∧
      (selectHandler t k).2.serverOnce = t.serverOnce ∧
      (selectHandler t k).2.serverOn = t.serverOn) ∧
    (∀ s c m hh rid conn,
      m.EventName ≠ "" →
      lookupA c.handlersOnce ⟨m.channel, m.EventName⟩ = none →
      lookupA c.handlers ⟨m.channel, m.EventName⟩ = some hh →
      m.requestID = some rid → c.conn = some conn → conn.writeErr = none →
      (hh m.HandlerArguments).2 = none →
      handleMessage s c m =
        (s, { c with conn := some { conn with written := conn.written ++ [resolveMessage rid (hh m.HandlerArguments).1] } },
         [], none)) := by
  refine ⟨?_, ?_, ?_, ?_, ?_, ?_⟩
  · intro h hh
    simp [selectHandler, hh]
  · intro h1 h hh
    simp [selectHandler, h1, hh]
  · intro h1 h2 h hh
    simp [selectHandler, h1, h2, hh]
  · intro h1 h2 h3
    simp [selectHandler, h1, h2, h3]
  · intro h hor
    rcases hor with hh | ⟨h1, hh⟩
    · simp [selectHandler, hh]
    · simp [selectHandler, h1, hh]
  · intro s c m hh rid conn hn h1 h2 hrid hconn hwe hherr
    obtain ⟨we, ce, wr⟩ := conn
    simp only at hwe
    subst hwe
    simp only [handleMessage, if_pos hn, selectHandler, h1, h2, hrid, hherr,
      sendResolve, hconn, ConnState.write, resolveMessage]

/-- Witness for C1: a concrete key registered in all four tables
selects the connection `once` handler and consumes it; with the
connection `once` table empty, the connection persistent handler is
selected without table changes and the registry tables are untouched. -/
theorem C1_lookup_priority_witness :
    selectHandler
      ⟨[(⟨"", "ev"⟩, fun _ => (some (.str "A"), none))],
       [(⟨"", "ev"⟩, fun _ => (some (.str "B"), none))],
       [(⟨"", "ev"⟩, fun _ => (some (.str "C"), none))],
       [(⟨"", "ev"⟩, fun _ => (some (.str "D"), none))]⟩ ⟨"", "ev"⟩
      = (some (fun _ => (some (.str "A"), none)),
         ⟨[],
          [(⟨"", "ev"⟩, fun _ => (some (.str "B"), none))],
          [(⟨"", "ev"⟩, fun _ => (some (.str "C"), none))],
          [(⟨"", "ev"⟩, fun _ => (some (.str "D"), none))]⟩) ∧
    selectHandler
      ⟨[],
       [(⟨"", "ev"⟩, fun _ => (some (.str "B"), none))],
       [(⟨"", "ev"⟩, fun _ => (some (.str "C"), none))],
       [(⟨"", "ev"⟩, fun _ => (some (.str "D"), none))]⟩ ⟨"", "ev"⟩
      = (some (fun _ => (some (.str "B"), none)),
         ⟨[],
          [(⟨"", "ev"⟩, fun _ => (some (.str "B"), none))],
          [(⟨"", "ev"⟩, fun _ => (some (.str "C"), none))],
          [(⟨"", "ev"⟩, fun _ => (some (.str "D"), none))]⟩) ∧
    (selectHandler
      ⟨[],
       [(⟨"", "ev"⟩, fun _ => (some (.str "B"), none))],
       [(⟨"", "ev"⟩, fun _ => (some (.str "C"), none))],
       [(⟨"", "ev"⟩, fun _ => (some (.str "D"), none))]⟩ ⟨"", "ev"⟩).2.serverOnce
      = [(⟨"", "ev"⟩, fun _ => (some (.str "C"), none))] ∧
    handleMessage { } { id := 0, handlers := [(⟨"", "echo"⟩, fun args => (args.head?, none))] } { arguments := [.str "echo", .str "hi"], requestID := some 1 } =
      ({ }, { id := 0, conn := some { written := [resolveMessage 1 (some (.str "hi"))] }, handlers := [(⟨"", "echo"⟩, fun args => (args.head?, none))] },
       [], none) := by
  refine ⟨(C1_lookup_priority _ _).1 _ rfl,
    (C1_lookup_priority
      ⟨[],
       [(⟨"", "ev"⟩, fun _ => (some (.str "B"), none))],
       [(⟨"", "ev"⟩, fun _ => (some (.str "C"), none))],
       [(⟨"", "ev"⟩, fun _ => (some (.str "D"), none))]⟩ ⟨"", "ev"⟩).2.1 rfl _ rfl,
    ((C1_lookup_priority
      ⟨[],
       [(⟨"", "ev"⟩, fun _ => (some (.str "B"), none))],
       [(⟨"", "ev"⟩, fun _ => (some (.str "C"), none))],
       [(⟨"", "ev"⟩, fun _ => (some (.str "D"), none))]⟩ ⟨"", "ev"⟩).2.2.2.2.1
      (fun _ => (some (.str "B"), none))
      (Or.inr ⟨rfl, rfl⟩)).2.1,
    (C1_lookup_priority ⟨[], [], [], []⟩ ⟨"", "ev"⟩).2.2.2.2.2
      { } { id := 0, handlers := [(⟨"", "echo"⟩, fun args => (args.head?, none))] }
      { arguments := [.str "echo", .str "hi"], requestID := some 1 }
      (fun args => (args.head?, none)) 1 { }
      (by decide) rfl rfl rfl rfl rfl rfl⟩

theorem lookupA_eraseA_self {α β : Type} [DecidableEq α]
    (l : List (α × β)) (k : α) : lookupA (eraseA l k) k = none := by
  induction l with
  | nil => rfl
  | cons p rest ih =>
    obtain ⟨k2, v⟩ := p
    by_cases hk : k2 = k
    · simp [eraseA, hk, ih]
    · simp [eraseA, lookupA, hk, ih]

theorem lookupA_append_of_not_mem {α β : Type} [DecidableEq α]
    (pre rest : List (α × β)) (k : α) (h : ∀ v, (k, v) ∉ pre) :
    lookupA (pre ++ rest) k = lookupA rest k := by
  induction pre with
  | nil => rfl
  | cons p pre2 ih =>
    obtain ⟨k2, v⟩ := p
    have hk : k2 ≠ k := by
      intro hk
      subst hk
      exact h v (List.mem_cons_self _ _)
    simp only [List.cons_append, lookupA, if_neg hk]
    exact ih (fun v2 hv2 => h v2 (List.mem_cons_of_mem _ hv2))

/-- C3: when no handler is found in any of the four tables, an inbound
request is answered with a rejected response whose error is the
"no event listener" string (with the channel name included only on a
named channel), while a requestless event is silently ignored; in
particular the request with arguments `["missing"]` and id 2 on a fresh
server yields exactly the response with id 2 and error
"no event listener for \x27missing\x27". -/
theorem C3_no_listener (s : ServerState) (c : ClientState) (m : Message) :
    (m.EventName ≠ "" →
      lookupA c.handlersOnce ⟨m.channel, m.EventName⟩ = none →
      lookupA c.handlers ⟨m.channel, m.EventName⟩ = none →
      lookupA s.handlersOnce ⟨m.channel, m.EventName⟩ = none →
      lookupA s.handlers ⟨m.channel, m.EventName⟩ = none →
      ((∀ rid conn, m.requestID = some rid → c.conn = some conn →
        conn.writeErr = none →
        handleMessage s c m =
          (s, { c with conn := some { conn with written := conn.written ++ [rejectMessage rid (noListenerError m.channel m.EventName)] } },
           [], none)) ∧
       (m.requestID = none → handleMessage s c m = (s, c, [], none)))) ∧
    handleMessage { } { id := 0 } { arguments := [.str "missing"], requestID := some 2 } =
      ({ }, { id := 0, conn := some { written := [rejectMessage 2 "no event listener for \x27missing\x27"] } },
       [], none) := by
  constructor
  · intro hn h1 h2 h3 h4
    constructor
    · intro rid conn hrid hconn hwe
      obtain ⟨we, ce, wr⟩ := conn
      simp only at hwe
      subst hwe
      simp only [handleMessage, if_pos hn, selectHandler, h1, h2, h3, h4, hrid,
        sendReject, hconn, ConnState.write, rejectMessage]
    · intro hrid
      simp only [handleMessage, if_pos hn, selectHandler, h1, h2, h3, h4, hrid]
  · rfl

/-- Witness for C3: evaluates the no-listener branches of
`handleMessage` at concrete inputs through `C3_no_listener`. -/
theorem C3_no_listener_witness :
    handleMessage { } { id := 0 }
      { channel := "ch", arguments := [.str "ev"], requestID := some 5 } =
      ({ }, { id := 0, conn := some { written := [rejectMessage 5 "no event listener for \x27ev\x27 on channel \x27ch\x27"] } },
       [], none) ∧
    handleMessage { } { id := 0 } { arguments := [.str "ev"] } =
      ({ }, { id := 0 }, [], none) := by
  constructor
  · exact ((C3_no_listener { } { id := 0 }
      { channel := "ch", arguments := [.str "ev"], requestID := some 5 }).1
      (by decide) rfl rfl rfl rfl).1 5 { } rfl rfl rfl
  · exact ((C3_no_listener { } { id := 0 } { arguments := [.str "ev"] }).1
      (by decide) rfl rfl rfl rfl).2 rfl

/-- C9: an inbound message with no event name and a set request id that
matches a pending request has its `(data, error)` outcome delivered to
that waiter exactly once, with the pending entry removed from the map,
so that reprocessing the same response afterwards delivers nothing; a
request id matching no pending request is discarded without an error. -/
theorem C9_response_delivery (s : ServerState) (c : ClientState) (m : Message)
    (rid : Int) :
    m.EventName = "" → m.requestID = some rid →
    (((lookupA s.pending rid).isSome →
      handleMessage s c m =
        ({ s with pending := eraseA s.pending rid }, c,
         [(rid, ⟨(m.Response).1, (m.Response).2⟩)], none) ∧
      lookupA (eraseA s.pending rid) rid = none ∧
      handleMessage { s with pending := eraseA s.pending rid } c m =
        ({ s with pending := eraseA s.pending rid }, c, [], none)) ∧
     (lookupA s.pending rid = none →
      handleMessage s c m = (s, c, [], none))) := by
  intro hn hrid
  constructor
  · intro hpend
    obtain ⟨u, hu⟩ := Option.isSome_iff_exists.mp hpend
    refine ⟨?_, lookupA_eraseA_self _ _, ?_⟩
    · simp [handleMessage, hn, hrid, hu]
    · simp [handleMessage, hn, hrid, lookupA_eraseA_self]
  · intro hpend
    simp [handleMessage, hn, hrid, hpend]

/-- Witness for C9: a concrete response for pending id 7 is delivered
once and removes the entry; the duplicate is then discarded, as is a
response with an unknown id. -/
theorem C9_response_delivery_witness :
    handleMessage { pending := [(7, ())] } { id := 0 }
      { requestID := some 7, responseData := some (.str "ok") } =
      ({ pending := [] }, { id := 0 }, [(7, ⟨some (.str "ok"), none⟩)], none) ∧
    handleMessage { pending := [] } { id := 0 }
      { requestID := some 7, responseData := some (.str "ok") } =
      ({ pending := [] }, { id := 0 }, [], none) := by
  constructor
  · exact ((C9_response_delivery { pending := [(7, ())] } { id := 0 }
      { requestID := some 7, responseData := some (.str "ok") } 7
      rfl rfl).1 rfl).1
  · exact (C9_response_delivery { pending := [] } { id := 0 }
      { requestID := some 7, responseData := some (.str "ok") } 7
      rfl rfl).2 rfl

/-- C4 (code evaluated at the failing input): the first close of a
fresh client fires both close observers, performs the transport
handshake, and releases `dataMu`; the second close returns no error
and fires nothing, but it returns with `dataMu` still held — the early
return in `closeWithoutLock` skips `dataMu.Unlock()`, so the second
call does not leave the connection state unchanged and every later
`dataMu`-guarded operation on the client blocks forever. -/
theorem C4_second_close_leaks_mutex :
    (closeWithoutLock { id := 0 } 1000 "bye").2 =
      { firedClientClose := true, firedServerClose := true,
        transportClosed := true, result := none } ∧
    (closeWithoutLock { id := 0 } 1000 "bye").1.dataMuLocked = false ∧
    (closeWithoutLock (closeWithoutLock { id := 0 } 1000 "bye").1 1000 "bye").2 =
      { } ∧
    (closeWithoutLock (closeWithoutLock { id := 0 } 1000 "bye").1 1000
      "bye").1.dataMuLocked = true := by
  exact ⟨rfl, rfl, rfl, rfl⟩

/-- C5 counterexample: a connection close that really performs the
close handshake leaves the pending-request map of the registry intact —
the entry for request id 7 is still present afterwards, contradicting
the claim that pending entries are removed at connection close. -/
theorem C5_pending_survives_close :
    (clientClose { clients := some [{ id := 0 }], pending := [(7, ())] }
      { id := 0 } 1000 "bye").2.2.transportClosed = true ∧
    lookupA (clientClose { clients := some [{ id := 0 }], pending := [(7, ())] }
      { id := 0 } 1000 "bye").1.pending 7 = some () := by
  exact ⟨rfl, rfl⟩

/-- C5 as amended: closing a connection leaves the registry's
pending-request map untouched, but every waiter suspended on a request
of that connection resolves through the connection context's
cancellation with the "client closed" cause, which is distinguishable
from the registry-shutdown "request aborted" error. -/
theorem C5_close_resolves_pending (s : ServerState) (c : ClientState)
    (status : StatusCode) (reason : String) :
    (clientClose s c status reason).1.pending = s.pending ∧
    (c.ctxCause = none →
      (clientClose s c status reason).2.1.ctxCause = some (closedCause status) ∧
      awaitOutcome none (some (closedCause status)) none =
        some ⟨none, some ("awaiting response: " ++ closedCause status)⟩ ∧
      ("awaiting response: " ++ closedCause status) ≠ "request aborted") := by
  constructor
  · rfl
  · intro hcause
    refine ⟨?_, rfl, ?_⟩
    · simp only [clientClose, closeWithoutLock, hcause]
      cases hc : c.conn with
      | none => rfl
      | some conn => rfl
    · intro h
      have h2 := congrArg String.length h
      rw [String.length_append] at h2
      have h3 : ("awaiting response: ").length = 19 := rfl
      have h4 : ("request aborted").length = 15 := rfl
      omega

/-- Witness for C5: the amended close behaviour evaluated on a concrete
registry with request id 7 pending and a freshly accepted client. -/
theorem C5_close_resolves_pending_witness :
    (clientClose { clients := some [{ id := 0 }], pending := [(7, ())] }
      { id := 0 } 1000 "bye").1.pending = [(7, ())] ∧
    (clientClose { clients := some [{ id := 0 }], pending := [(7, ())] }
      { id := 0 } 1000 "bye").2.1.ctxCause =
      some (closedCause 1000) ∧
    awaitOutcome none (some (closedCause 1000)) none =
      some ⟨none, some ("awaiting response: " ++ closedCause 1000)⟩ ∧
    ("awaiting response: " ++ closedCause 1000) ≠ "request aborted" := by
  have h := C5_close_resolves_pending
    { clients := some [{ id := 0 }], pending := [(7, ())] } { id := 0 } 1000 "bye"
  exact ⟨h.1, (h.2 rfl).1, (h.2 rfl).2.1, (h.2 rfl).2.2⟩

theorem serverClose_errors_eq (cs : List ClientState)
    (h : ∀ c ∈ cs, c.conn ≠ none) :
    (cs.map (fun c => closeWithoutLock c StatusGoingAway "server is closing")).filterMap
      (fun r => r.2.result) =
    cs.filterMap (fun c => match c.conn with
      | some cn => cn.closeErr
      | none => none) := by
  induction cs with
  | nil => rfl
  | cons c rest ih =>
    have hc := h c (List.mem_cons_self _ _)
    have ih2 := ih (fun x hx => h x (List.mem_cons_of_mem _ hx))
    cases hconn : c.conn with
    | none => exact absurd hconn hc
    | some cn =>
      rw [List.filterMap_map] at ih2
      have hhead : (closeWithoutLock c StatusGoingAway "server is closing").2.result
          = cn.closeErr := by
        simp [closeWithoutLock, hconn]
      simp only [List.map_cons, List.filterMap_cons, List.filterMap_map]
      rw [hhead, hconn]
      cases hce : cn.closeErr <;> simp [hce, ih2]

/-- C6 counterexample: `Server.Close` cancels every client context
(recording the going-away close cause, as `closeWithoutLock` shows)
before it delivers `request aborted` into the pending response
channels, so the waiter for pending request 7 ends up with two ready
select alternatives, and Go's select may return the connection-closed
cancellation error instead of the aborted one — the caller is not
guaranteed to receive the "aborted" error. -/
theorem C6_aborted_race :
    (serverClose { clients := some [{ id := 0 }], pending := [(7, ())] }).2.2 =
      [(7, ⟨none, some "request aborted"⟩)] ∧
    (closeWithoutLock { id := 0 } StatusGoingAway "server is closing").1.ctxCause =
      some (closedCause StatusGoingAway) ∧
    selectCanReturn (some ⟨none, some "request aborted"⟩)
      (some (closedCause StatusGoingAway)) none
      ⟨none, some ("awaiting response: " ++ closedCause StatusGoingAway)⟩ ∧
    ("awaiting response: " ++ closedCause StatusGoingAway) ≠ "request aborted" := by
  refine ⟨rfl, rfl, .ofClientCtx _ rfl, by decide⟩

/-- C6 as amended: after `Server.Close`, every `Accept` fails with the
server-closed error and registers nothing; the pending map is cleared
and a "request aborted" resolution is delivered into every pending
response channel — but only after every client context has been
cancelled with the going-away cause, so a waiter suspended on such a
request neither blocks nor receives nil: every outcome its select can
return carries either the "request aborted" error or the
connection-closed cancellation error, whichever case the select
observes; every live connection with an open transport gets its close
handshake; and the returned error is the first transport close error
encountered over the live connections. -/
theorem C6_server_close_amended (s : ServerState) (id : Nat) (conn : ConnState) :
    (serverAccept (serverClose s).1 id conn).2 =
      some "server is closed and cannot accept connections" ∧
    (serverAccept (serverClose s).1 id conn).1 = (serverClose s).1 ∧
    (serverClose s).1.pending = [] ∧
    (serverClose s).2.2 =
      s.pending.map (fun p => (p.1, ⟨none, some "request aborted"⟩)) ∧
    (∀ r, selectCanReturn (some ⟨none, some "request aborted"⟩)
        (some (closedCause StatusGoingAway)) none r →
      r.Error = some "request aborted" ∨
      r.Error = some ("awaiting response: " ++ closedCause StatusGoingAway)) ∧
    (∀ cs, s.clients = some cs →
      (∀ c ∈ cs, c.conn ≠ none →
        (closeWithoutLock c StatusGoingAway "server is closing").2.transportClosed
          = true) ∧
      (∀ c ∈ cs,
        (closeWithoutLock c StatusGoingAway "server is closing").1.ctxCause ≠ none) ∧
      ((∀ c ∈ cs, c.conn ≠ none) →
        (serverClose s).2.1 = (cs.filterMap (fun c => match c.conn with
          | some cn => cn.closeErr
          | none => none)).head?)) := by
  refine ⟨rfl, rfl, rfl, rfl, ?_, ?_⟩
  · intro r h
    cases h with
    | ofDelivered r2 h2 =>
      injection h2 with h3
      subst h3
      left
      rfl
    | ofClientCtx cause h2 =>
      injection h2 with h3
      subst h3
      right
      rfl
    | ofCallerCtx cause h2 => cases h2
  · intro cs hcs
    refine ⟨?_, ?_, ?_⟩
    · intro c hc hconn
      cases hcn : c.conn with
      | none => exact absurd hcn hconn
      | some cn => simp [closeWithoutLock, hcn]
    · intro c hc
      cases hcc : c.ctxCause with
      | none => cases hcn : c.conn <;> simp [closeWithoutLock, hcc, hcn]
      | some old => cases hcn : c.conn <;> simp [closeWithoutLock, hcc, hcn]
    · intro hall
      simp only [serverClose, hcs]
      exact congrArg List.head? (serverClose_errors_eq cs hall)

/-- Witness for C6: a concrete registry with two live clients (the
second one whose transport close fails) and request id 7 pending; the
delivered alternative of the waiter's select carries the aborted
error. -/
theorem C6_server_close_amended_witness :
    (serverAccept (serverClose { clients := some [{ id := 0 }, { id := 1, conn := some { closeErr := some "boom" } }], pending := [(7, ())] }).1 2 { }).2 =
      some "server is closed and cannot accept connections" ∧
    (serverClose { clients := some [{ id := 0 }, { id := 1, conn := some { closeErr := some "boom" } }], pending := [(7, ())] }).2.2 = [(7, ⟨none, some "request aborted"⟩)] ∧
    (serverClose { clients := some [{ id := 0 }, { id := 1, conn := some { closeErr := some "boom" } }], pending := [(7, ())] }).2.1 = some "boom" ∧
    ((⟨none, some "request aborted"⟩ : messageResponse).Error = some "request aborted" ∨
      (⟨none, some "request aborted"⟩ : messageResponse).Error =
        some ("awaiting response: " ++ closedCause StatusGoingAway)) := by
  have h := C6_server_close_amended { clients := some [{ id := 0 }, { id := 1, conn := some { closeErr := some "boom" } }], pending := [(7, ())] } 2 { }
  refine ⟨h.1, h.2.2.2.1, ?_, ?_⟩
  · have h2 := (h.2.2.2.2.2 _ rfl).2.2 ?_
    · exact h2
    · intro c hc
      simp only [List.mem_cons, List.mem_singleton] at hc
      rcases hc with hc | hc | hc
      · subst hc; simp
      · subst hc; simp
      · cases hc
  · exact h.2.2.2.2.1 ⟨none, some "request aborted"⟩ (.ofDelivered _ rfl)

theorem emitToClients_ok (channelName : String) (args : List Json) :
    ∀ cs : List ClientState,
    (∀ c ∈ cs, ∃ cn, c.conn = some cn ∧ cn.writeErr = none) →
    emitToClients channelName args cs = (cs.map (appendEvent channelName args), []) := by
  intro cs h
  induction cs with
  | nil => rfl
  | cons c rest ih =>
    obtain ⟨cn, hcn, hwe⟩ := h c (List.mem_cons_self _ _)
    have ih2 := ih (fun x hx => h x (List.mem_cons_of_mem _ hx))
    simp only [emitToClients, sendEvent, hcn, ConnState.write, hwe, ih2,
      List.map_cons, appendEvent]

theorem emitToClients_one_bad (channelName : String) (args : List Json)
    (cs1 cs2 : List ClientState) (cbad : ClientState) (connB : ConnState)
    (e : String)
    (h1 : ∀ c ∈ cs1, ∃ cn, c.conn = some cn ∧ cn.writeErr = none)
    (h2 : ∀ c ∈ cs2, ∃ cn, c.conn = some cn ∧ cn.writeErr = none)
    (hb : cbad.conn = some connB) (hbe : connB.writeErr = some e) :
    emitToClients channelName args (cs1 ++ cbad :: cs2) =
      (cs1.map (appendEvent channelName args) ++ cbad ::
        cs2.map (appendEvent channelName args), [⟨some cbad.id, e⟩]) := by
  induction cs1 with
  | nil =>
    simp only [List.nil_append, List.map_nil, emitToClients, sendEvent, hb,
      ConnState.write, hbe, emitToClients_ok channelName args cs2 h2]
    rw [← hb]
  | cons c rest ih =>
    obtain ⟨cn, hcn, hwe⟩ := h1 c (List.mem_cons_self _ _)
    have ih2 := ih (fun x hx => h1 x (List.mem_cons_of_mem _ hx))
    simp only [List.cons_append, emitToClients, sendEvent, hcn, ConnState.write,
      hwe, List.append_eq, ih2, List.map_cons, appendEvent]

/-- C7: a registry-bound Emit attempts the write on every live
connection: with the live set split as good clients, one client whose
transport write fails with error `e`, and more good clients, Emit
returns exactly one per-client error (naming the failing client) and
the event message is appended to the written log of every other
connection, the failing one left unchanged. -/
theorem C7_broadcast_partial_failure (s : ServerState) (channelName : String)
    (args : List Json) (name : String) (rest : List Json)
    (cs1 cs2 : List ClientState) (cbad : ClientState) (connB : ConnState)
    (e : String) :
    args = .str name :: rest →
    ¬(channelName = "" ∧ IsReservedEvent name = true) →
    s.clients = some (cs1 ++ cbad :: cs2) →
    (∀ c ∈ cs1, ∃ cn, c.conn = some cn ∧ cn.writeErr = none) →
    (∀ c ∈ cs2, ∃ cn, c.conn = some cn ∧ cn.writeErr = none) →
    cbad.conn = some connB → connB.writeErr = some e →
    (serverEmit s channelName args).2 = [⟨some cbad.id, e⟩] ∧
    (serverEmit s channelName args).1.clients =
      some (cs1.map (appendEvent channelName args) ++ cbad ::
        cs2.map (appendEvent channelName args)) := by
  intro hargs hres hcl h1 h2 hb hbe
  have hemit := emitToClients_one_bad channelName args cs1 cs2 cbad connB e
    h1 h2 hb hbe
  subst hargs
  constructor
  · simp only [serverEmit, checkEventName, if_neg hres, hcl, hemit]
  · simp only [serverEmit, checkEventName, if_neg hres, hcl, hemit]

/-- Witness for C7: three live clients of which the middle one's write
fails; Emit reports exactly that failure and the other two receive the
event. -/
theorem C7_broadcast_partial_failure_witness :
    (serverEmit { clients := some [{ id := 0 }, { id := 1, conn := some { writeErr := some "broken pipe" } }, { id := 2 }] } "news" [.str "update", .num 4]).2
      = [⟨some 1, "broken pipe"⟩] ∧
    (serverEmit { clients := some [{ id := 0 }, { id := 1, conn := some { writeErr := some "broken pipe" } }, { id := 2 }] } "news" [.str "update", .num 4]).1.clients
      = some [{ id := 0, conn := some { written := [{ channel := "news", arguments := [.str "update", .num 4] }] } },
          { id := 1, conn := some { writeErr := some "broken pipe" } },
          { id := 2, conn := some { written := [{ channel := "news", arguments := [.str "update", .num 4] }] } }] := by
  have h := C7_broadcast_partial_failure
    { clients := some [{ id := 0 }, { id := 1, conn := some { writeErr := some "broken pipe" } }, { id := 2 }] }
    "news" [.str "update", .num 4] "update" [.num 4]
    [{ id := 0 }] [{ id := 2 }]
    { id := 1, conn := some { writeErr := some "broken pipe" } }
    { writeErr := some "broken pipe" } "broken pipe"
    rfl (by decide) rfl
    (by intro c hc
        simp only [List.mem_singleton] at hc
        subst hc
        exact ⟨{ }, rfl, rfl⟩)
    (by intro c hc
        simp only [List.mem_singleton] at hc
        subst hc
        exact ⟨{ }, rfl, rfl⟩)
    rfl rfl
  exact ⟨h.1, h.2⟩

/-- C8: `callHandler` checks the argument count against the declared
parameters (excluding an optional leading context parameter) and fails
on a mismatch whatever the underlying function does; each argument is
then converted directly when compatible, element-wise when argument and
parameter are slices of convertible element types, or the call fails
with the type-mismatch error without invoking the function; on success
the function is invoked and `callHandler` returns its `(result, error)`,
with a nil result when the handler declares only an error output. -/
theorem C8_callHandler_contract (f : GoFunc) (arguments : List GoVal) :
    (arguments.length ≠ f.inTypes.length -
        (if f.inTypes.head? = some GoType.context then 1 else 0) →
      ∀ g, callHandler { f with impl := g } arguments =
        (none, some "incorrect number of arguments")) ∧
    (∀ v t, (convertibleTo (GoVal.typeOf v) t = true →
        convertArg v t = .ok (convert v t)) ∧
      (∀ argE elems paramE, v = .sliceV argE elems → t = .sliceT paramE →
        convertibleTo (GoVal.typeOf v) t = false →
        convertibleTo argE paramE = true →
        convertArg v t = .ok (.sliceV paramE (elems.map (fun x => convert x paramE)))) ∧
      (convertibleTo (GoVal.typeOf v) t = false →
        (∀ argE elems paramE, ¬(v = .sliceV argE elems ∧ t = .sliceT paramE ∧
           convertibleTo argE paramE = true)) →
        convertArg v t = .error "argument type mismatch")) ∧
    (arguments.length = f.inTypes.length -
        (if f.inTypes.head? = some GoType.context then 1 else 0) →
      (f.numOut = 1 ∨ f.numOut = 2) → f.lastOutIsError = true →
      ((∀ e, convertArgs arguments (f.inTypes.drop
          (if f.inTypes.head? = some GoType.context then 1 else 0)) = .error e →
        ∀ g, callHandler { f with impl := g } arguments = (none, some e)) ∧
       (∀ ins, convertArgs arguments (f.inTypes.drop
          (if f.inTypes.head? = some GoType.context then 1 else 0)) = .ok ins →
        callHandler f arguments =
          ((if f.numOut = 2 then (f.impl ins).1 else none), (f.impl ins).2) ∧
        (f.numOut = 1 → (callHandler f arguments).1 = none)))) := by
  refine ⟨?_, ?_, ?_⟩
  · intro hcount g
    simp [callHandler, hcount]
  · intro v t
    refine ⟨?_, ?_, ?_⟩
    · intro hconv
      simp [convertArg, hconv]
    · intro argE elems paramE hv ht hnc hec
      subst hv ht
      simp only [GoVal.typeOf] at hnc
      simp [convertArg, GoVal.typeOf, hnc, hec]
    · intro hnc hno
      cases v with
      | sliceV argE elems =>
        simp only [GoVal.typeOf] at hnc
        cases t with
        | sliceT paramE =>
          have hec : convertibleTo argE paramE = false := by
            cases hq : convertibleTo argE paramE with
            | false => rfl
            | true => exact absurd ⟨rfl, rfl, hq⟩ (hno argE elems paramE)
          simp [convertArg, GoVal.typeOf, hnc, hec]
        | context => simp [convertArg, GoVal.typeOf, hnc]
        | boolT => simp [convertArg, GoVal.typeOf, hnc]
        | intT => simp [convertArg, GoVal.typeOf, hnc]
        | int64T => simp [convertArg, GoVal.typeOf, hnc]
      | boolV b =>
        simp only [GoVal.typeOf] at hnc
        cases t <;> simp [convertArg, GoVal.typeOf, hnc]
      | intV n =>
        simp only [GoVal.typeOf] at hnc
        cases t <;> simp [convertArg, GoVal.typeOf, hnc]
      | int64V n =>
        simp only [GoVal.typeOf] at hnc
        cases t <;> simp [convertArg, GoVal.typeOf, hnc]
      | ctxV =>
        simp only [GoVal.typeOf] at hnc
        cases t <;> simp [convertArg, GoVal.typeOf, hnc]
  · intro hcount hout hlast
    constructor
    · intro e hce g
      rcases hout with h1 | h2
      · simp [callHandler, hcount, h1, hlast, hce]
      · simp [callHandler, hcount, h2, hlast, hce]
    · intro ins hok
      rcases hout with h1 | h2
      · constructor
        · simp [callHandler, hcount, h1, hlast, hok]
        · intro _
          simp [callHandler, hcount, h1, hlast, hok]
      · constructor
        · simp [callHandler, hcount, h2, hlast, hok]
        · intro hq
          rw [hq] at h2
          cases h2

/-- Witness for C8: a handler of shape (context, int, []int) → 2
values evaluated through `C8_callHandler_contract` — too few arguments
fail with the count error, a bool argument fails with the type-mismatch
error, and matching arguments (an int64 converted directly, an []int64
converted element-wise) invoke the function and return its results. -/
theorem C8_callHandler_contract_witness :
    callHandler { inTypes := [.context, .intT, .sliceT .intT], numOut := 2, lastOutIsError := true, impl := fun ins => (ins.head?, none) } [] =
      (none, some "incorrect number of arguments") ∧
    callHandler { inTypes := [.context, .intT, .sliceT .intT], numOut := 2, lastOutIsError := true, impl := fun ins => (ins.head?, none) } [.boolV true, .sliceV .intT []] =
      (none, some "argument type mismatch") ∧
    callHandler { inTypes := [.context, .intT, .sliceT .intT], numOut := 2, lastOutIsError := true, impl := fun ins => (ins.head?, none) } [.int64V 3, .sliceV .int64T [.int64V 1]] =
      (some (.intV 3), none) := by
  refine ⟨?_, ?_, ?_⟩
  · exact (C8_callHandler_contract { inTypes := [.context, .intT, .sliceT .intT], numOut := 2, lastOutIsError := true, impl := fun ins => (ins.head?, none) } []).1 (by decide)
      (fun ins => (ins.head?, none))
  · exact ((C8_callHandler_contract { inTypes := [.context, .intT, .sliceT .intT], numOut := 2, lastOutIsError := true, impl := fun ins => (ins.head?, none) } [.boolV true, .sliceV .intT []]).2.2
      rfl (Or.inr rfl) rfl).1 "argument type mismatch" rfl
      (fun ins => (ins.head?, none))
  · exact (((C8_callHandler_contract { inTypes := [.context, .intT, .sliceT .intT], numOut := 2, lastOutIsError := true, impl := fun ins => (ins.head?, none) } [.int64V 3, .sliceV .int64T [.int64V 1]]).2.2
      rfl (Or.inr rfl) rfl).2 [.intV 3, .sliceV .intT [.intV 1]] rfl).1

/-- C10: `ClientFromContext` recovers the originating client from the
context built at accept time — also through later value wrappings that
do not rebind `ClientKey` — and returns nil (rather than panicking or
erroring) on every context that carries no `*Client` under `ClientKey`. -/
theorem C10_client_from_context :
    (∀ id, ClientFromContext (newClientContext id) = some id) ∧
    (∀ pre id, (∀ v, (CtxKey.clientKey, v) ∉ pre) →
      ClientFromContext (pre ++ newClientContext id) = some id) ∧
    (∀ ctx, (∀ c, ctxValue ctx .clientKey ≠ some (.clientVal c)) →
      ClientFromContext ctx = none) := by
  refine ⟨fun id => rfl, ?_, ?_⟩
  · intro pre id hpre
    simp only [ClientFromContext, ctxValue,
      lookupA_append_of_not_mem pre (newClientContext id) .clientKey hpre]
    rfl
  · intro ctx hctx
    cases hv : ctxValue ctx .clientKey with
    | none => simp [ClientFromContext, hv]
    | some v =>
      cases v with
      | clientVal c => exact absurd hv (hctx c)
      | otherVal tag => simp [ClientFromContext, hv]

/-- Witness for C10: the accept-time context of client 5, also wrapped
by a foreign binding, yields client 5; a context with a foreign value
under `ClientKey` and the empty context yield nil. -/
theorem C10_client_from_context_witness :
    ClientFromContext (newClientContext 5) = some 5 ∧
    ClientFromContext ([(.otherKey 3, .otherVal 9)] ++ newClientContext 5) = some 5 ∧
    ClientFromContext [(.clientKey, .otherVal 9)] = none ∧
    ClientFromContext [] = none := by
  refine ⟨C10_client_from_context.1 5,
    C10_client_from_context.2.1 [(.otherKey 3, .otherVal 9)] 5 ?_,
    C10_client_from_context.2.2 [(.clientKey, .otherVal 9)] ?_,
    C10_client_from_context.2.2 [] ?_⟩
  · intro v hv
    simp at hv
  · intro c hc
    simp [ctxValue, lookupA] at hc
  · intro c hc
    simp [ctxValue, lookupA] at hc
